import Mathlib

/-!
Verification development for the resume-tailoring application.

The embedding below models, faithfully to the Python sources:
  * the pydantic data model of `src/services/resume_matcher.py` and
    `src/models/schema.py` (structures `BulletPoint`, `CompanyInfo`,
    `Experience`, `Education`, `EmploymentHistory`, `Skill`, `ResumeData`,
    `Skills`, `ProfileData`);
  * the pure fallback algorithms `_extract_keywords` and `_generate_summary`
    of `ResumeMatcher` (keyword frequency analysis and keyword-overlap
    summary construction), including the exact Python regex semantics of
    `re.findall(r'\b[a-zA-Z]+\b', text.lower())` and
    `re.split(r'\n#{2,3} ', text)`;
  * `generate_tailored_resume` and `_legacy_generate_tailored_resume`,
    with the two external generation calls (`extract_sills` and the
    structured chat completion) modelled by an oracle parameter
    `GenOutcome`: either both calls succeed and deliver a skill set and a
    parsed model resume, or one of them raises and the code falls back;
  * the flat-file profile store of `src/app.py` (`save_profile`,
    `load_profile`), with the file system modelled as an association list
    from file names to JSON values and pydantic (de)serialization modelled
    at the JSON-value level.
-/

/-! ## Data model (pydantic classes of resume_matcher.py / schema.py) -/

/-- Python class `BulletPoint` of resume_matcher.py. -/
structure BulletPoint where
  bullet_point : String
deriving DecidableEq, Repr

/-- Python class `CompanyInfo` of resume_matcher.py. -/
structure CompanyInfo where
  name : String
  period : String
  location : String
deriving DecidableEq, Repr

/-- Python class `Experience` of resume_matcher.py. -/
structure Experience where
  company_info : CompanyInfo
  job_title : String
  bullet_points : List BulletPoint
deriving DecidableEq, Repr

/-- Python class `Education`; resume_matcher.py and schema.py both declare
this class with identical fields, so a single structure models both. -/
structure Education where
  university_name : String
  period : String
  location : String
  degree : String
deriving DecidableEq, Repr

/-- Python class `EmploymentHistory`; declared identically in
resume_matcher.py and schema.py. -/
structure EmploymentHistory where
  company_name : String
  period : String
  location : String
deriving DecidableEq, Repr

/-- Python class `Skill` of resume_matcher.py (one categorized entry of the
skills section of a generated resume). -/
structure Skill where
  category : String
  skill_list : String
deriving DecidableEq, Repr

/-- Python class `ResumeData` of resume_matcher.py (the full shape used by
`generate_tailored_resume`; the reduced `ResumeData` of schema.py is not
used by the matcher). `linkedin` is `Optional[str]`. -/
structure ResumeData where
  name : String
  title : String
  email : String
  phone : String
  location : String
  linkedin : Option String
  summary : String
  experiences : List Experience
  education : List Education
  employment_history : List EmploymentHistory
  skills : List Skill
deriving DecidableEq, Repr

/-- Python class `Skills` of resume_matcher.py (output of the skill
extraction call). -/
structure Skills where
  hard_skills : List String
  soft_skills : List String
deriving DecidableEq, Repr

/-- The `user_info` dict assembled in app.py and passed to
`generate_tailored_resume`: always carries exactly the keys
`name`, `title`, `email`, `phone`, `location`, `linkedin`, `education`,
`employment_history`. -/
structure UserInfo where
  name : String
  title : String
  email : String
  phone : String
  location : String
  linkedin : Option String
  education : List Education
  employment_history : List EmploymentHistory
deriving DecidableEq, Repr

/-! ## Character-level helpers (Python string semantics on ASCII input) -/

/-- Python `str.lower()` on an ASCII character. -/
def lowerChar (c : Char) : Char :=
  if 'A' ≤ c && c ≤ 'Z' then Char.ofNat (c.toNat + 32) else c

/-- Membership in the regex word class `[a-zA-Z0-9_]` (used by the `\b`
anchors of `re.findall(r'\b[a-zA-Z]+\b', ...)`). -/
def isWordCharL (c : Char) : Bool :=
  ('a' ≤ c && c ≤ 'z') || ('A' ≤ c && c ≤ 'Z') || ('0' ≤ c && c ≤ '9') || c == '_'

/-- Membership in `[a-z]` (the text is lowered before tokenization, so the
regex class `[a-zA-Z]` only ever meets lowercase letters). -/
def isLowerAlpha (c : Char) : Bool :=
  'a' ≤ c && c ≤ 'z'

/-- Python `str.strip()` whitespace set (ASCII part). -/
def isPySpace (c : Char) : Bool :=
  c == ' ' || c == '\t' || c == '\n' || c == '\r' ||
    c == Char.ofNat 11 || c == Char.ofNat 12

/-- Does a word boundary precede the current letter run?  `none` stands for
the start of the string. -/
def startOk : Option Char → Bool
  | none => true
  | some p => !isWordCharL p

/-- Scanner for `re.findall(r'\b[a-zA-Z]+\b', lowered_text)`.  A maximal
run of letters is a match exactly when the characters adjacent to the run
(if any) are not word characters; `prev` is the character before the
current run and `cur` holds the run read so far, reversed. -/
def pyWordsGo (prev : Option Char) (cur : List Char) : List Char → List (List Char)
  | [] =>
    if cur.isEmpty then []
    else if startOk prev then [cur.reverse] else []
  | c :: rest =>
    if isLowerAlpha c then
      pyWordsGo prev (c :: cur) rest
    else
      if !cur.isEmpty && startOk prev && !isWordCharL c then
        cur.reverse :: pyWordsGo (some c) [] rest
      else
        pyWordsGo (some c) [] rest

/-- All regex word matches of `\b[a-zA-Z]+\b` in an (already lowered)
character list, in order. -/
def pyWords (l : List Char) : List (List Char) :=
  pyWordsGo none [] l

/-- Scanner for `re.split(r'\n#{2,3} ', text)`: the quantifier is greedy,
so a three-hash heading is preferred over a two-hash one, and four or more
hashes match neither alternative. `cur` holds the current section,
reversed. -/
def pySplitGo (cur : List Char) : List Char → List (List Char)
  | '\n' :: '#' :: '#' :: '#' :: ' ' :: rest => cur.reverse :: pySplitGo [] rest
  | '\n' :: '#' :: '#' :: ' ' :: rest => cur.reverse :: pySplitGo [] rest
  | c :: rest => pySplitGo (c :: cur) rest
  | [] => [cur.reverse]

/-- Python `re.split(r'\n#{2,3} ', text)` on a character list. -/
def splitSections (l : List Char) : List (List Char) :=
  pySplitGo [] l

/-- Python `text.split('\n\n')[0]`: everything before the first occurrence
of two consecutive newlines. -/
def firstChunk : List Char → List Char
  | '\n' :: '\n' :: _ => []
  | c :: rest => c :: firstChunk rest
  | [] => []

/-- Python `str.strip()` on a character list. -/
def pyStrip (l : List Char) : List Char :=
  ((l.dropWhile isPySpace).reverse.dropWhile isPySpace).reverse

/-- Python substring test `needle in hay` on character lists. -/
def containsSub (needle : List Char) : List Char → Bool
  | [] => needle.isEmpty
  | c :: rest => needle.isPrefixOf (c :: rest) || containsSub needle rest

/-- Stable insertion of a scored item into a descending-by-score list; an
incoming item goes after every already-placed item of greater or equal
score, matching the stability of Python `sorted(..., reverse=True)`. -/
def insertScored {α : Type} (p : α × Nat) : List (α × Nat) → List (α × Nat)
  | [] => [p]
  | q :: qs => if p.2 ≤ q.2 then q :: insertScored p qs else p :: q :: qs

/-- Stable sort by score, descending (the semantics of Python
`sorted(items, key=lambda x: x[1], reverse=True)` and of
`list.sort(key=..., reverse=True)`). -/
def sortDesc {α : Type} (l : List (α × Nat)) : List (α × Nat) :=
  l.foldl (fun acc p => insertScored p acc) []

/-- First occurrences of each string, in order (the key order of a Python
dict filled left to right). -/
def firstUniqGo (seen : List String) : List String → List String
  | [] => []
  | w :: ws => if seen.contains w then firstUniqGo seen ws else w :: firstUniqGo (w :: seen) ws

/-- Python `' '.join(parts)`. -/
def joinSpace : List String → String
  | [] => ""
  | [s] => s
  | s :: rest => s ++ " " ++ joinSpace rest

/-- Concatenation of a list of strings (no separator). -/
def concatStrs : List String → String
  | [] => ""
  | s :: rest => s ++ concatStrs rest

/-! ## `_extract_keywords` (resume_matcher.py, lines 795-811) -/

/-- The fixed stopword set `common_words` of `_extract_keywords`. -/
def common_words : List String :=
  ["the", "and", "a", "to", "of", "in", "with", "for", "on", "is", "are", "you", "will", "be"]

/-- Python `_extract_keywords`: tokenize the lowered job description with
`\b[a-zA-Z]+\b`, drop stopwords and words of length at most 3, count
frequencies in first-occurrence order, sort stably by frequency descending
and keep the top 15. -/
def extract_keywords (job_description : String) : List String :=
  let words := (pyWords (job_description.data.map lowerChar)).map (fun l => String.mk l)
  let keywords := words.filter (fun w => !common_words.contains w && decide (3 < w.length))
  let ranked := sortDesc ((firstUniqGo [] keywords).map (fun w => (w, keywords.count w)))
  (ranked.take 15).map (fun p => p.1)

/-! ## `_generate_summary` (resume_matcher.py, lines 813-848) -/

/-- Keyword score of one section: Python
`sum(1 for keyword in keywords if keyword in section.lower())`, i.e. the
number of keywords occurring (as substrings) in the lowered section. -/
def sectionScore (keywords : List String) (sec : String) : Nat :=
  (keywords.filter (fun k => containsSub k.data (sec.data.map lowerChar))).length

/-- The 1500-character budget loop of `_generate_summary`: walk the chosen
sections in order, take the stripped first paragraph of each, and keep it
only when it still fits the running total (a paragraph that does not fit is
skipped but the loop continues). -/
def budgetGo (total : Nat) : List (String × Nat) → List String
  | [] => []
  | (sec, _) :: rest =>
    let para := String.mk (pyStrip (firstChunk sec.data))
    if total + para.length ≤ 1500 then
      para :: budgetGo (total + para.length) rest
    else
      budgetGo total rest

/-- The fixed generic closing statement appended by `_generate_summary`
when the assembled summary is shorter than 100 characters. -/
def genericClosing : String :=
  " Experienced professional with a track record of delivering high-quality results. Skilled in problem-solving and adapting to new challenges. Committed to continuous learning and professional growth."

/-- The summary assembled by `_generate_summary` before the length check:
split the experience text into sections, keep only sections containing at
least one keyword together with their scores, sort stably by score
descending, take the top 3, and join their budget-limited first paragraphs
with single spaces. -/
def rawFallbackSummary (experience_data : String) (keywords : List String) : String :=
  let sections := (splitSections experience_data.data).map (fun l => String.mk l)
  let scored := sections.map (fun sec => (sec, sectionScore keywords sec))
  let relevant := scored.filter (fun p => decide (0 < p.2))
  joinSpace (budgetGo 0 ((sortDesc relevant).take 3))

/-- Python `_generate_summary` (its unused `job_description` parameter is
omitted): the raw summary, with the generic closing statement appended when
it is shorter than 100 characters. -/
def generate_summary (experience_data : String) (keywords : List String) : String :=
  let s := rawFallbackSummary experience_data keywords
  if s.length < 100 then s ++ genericClosing else s

/-! ## Spec-side fallback-summary definitions (for claim C7)

The specification describes the fallback summary algorithm as: "Split the
free-text experience into sections on heading boundaries; score each
section by count of keyword occurrences; take the top 3 sections by score,
concatenate their first paragraphs up to a combined 1500-character budget;
if the result is shorter than 100 characters, append a fixed generic
closing statement."  The definition below follows those words: every
section is ranked, including sections containing no keyword at all. -/

/-- Modelled from the spec text of the fallback summary algorithm: rank ALL
sections by score (the spec does not restrict the candidates to sections
containing a keyword) and take the top 3. -/
def generate_summary_specLiteral (experience_data : String) (keywords : List String) : String :=
  let sections := (splitSections experience_data.data).map (fun l => String.mk l)
  let scored := sections.map (fun sec => (sec, sectionScore keywords sec))
  let s := joinSpace (budgetGo 0 ((sortDesc scored).take 3))
  if s.length < 100 then s ++ genericClosing else s

/-- Modelled from the amended spec text: as `generate_summary_specLiteral`,
but only sections containing at least one keyword are candidates for the
top 3. -/
def generate_summary_specAmended (experience_data : String) (keywords : List String) : String :=
  let sections := (splitSections experience_data.data).map (fun l => String.mk l)
  let candidates := sections.filter (fun sec => decide (0 < sectionScore keywords sec))
  let scored := candidates.map (fun sec => (sec, sectionScore keywords sec))
  let s := joinSpace (budgetGo 0 ((sortDesc scored).take 3))
  if s.length < 100 then s ++ genericClosing else s

/-- The complete fallback summary as the code computes it: keywords from
the job description, then `_generate_summary` over the experience text. -/
def fallbackSummary (experience_data job_description : String) : String :=
  generate_summary experience_data (extract_keywords job_description)

/-- The complete fallback summary as the spec sentence describes it. -/
def fallbackSummarySpecLiteral (experience_data job_description : String) : String :=
  generate_summary_specLiteral experience_data (extract_keywords job_description)

/-- The complete fallback summary per the amended spec sentence. -/
def fallbackSummarySpecAmended (experience_data job_description : String) : String :=
  generate_summary_specAmended experience_data (extract_keywords job_description)

/-! ## `_legacy_generate_tailored_resume` (resume_matcher.py, lines 850-919) -/

/-- The three fixed placeholder experience entries of
`_legacy_generate_tailored_resume`. -/
def fallbackExperiences : List Experience :=
  [ { company_info := { name := "Tech Innovators Inc.", period := "01/2021 - 05/2025", location := "New York, NY" }
      job_title := "Senior AI Engineer"
      bullet_points :=
        [ { bullet_point := "Engineered a supervisor-orchestrated multi-agent system on Azure, leveraging LangGraph\x27s stateful execution capabilities, reducing data engineering development time by 40%." }
        , { bullet_point := "Fused agent systems with Azure OpenAI Service for sophisticated natural language understanding, enabling automated translation of Jira issues into optimized data pipeline code." }
        , { bullet_point := "Implemented multi-stage code validation within the LangGraph framework, incorporating unit tests and integration tests, reducing manual code review overhead by 70%." }
        , { bullet_point := "Enhanced contextual awareness by creating GraphRAG systems using Neo4j integrated with Azure AI Search, resulting in an 18% improvement in code generation accuracy." }
        , { bullet_point := "Defined and codified reusable domain-specific process definition libraries (PDLs) for rapid instantiation of pre-configured, industry-tailored agent workflows." } ] }
  , { company_info := { name := "Intelligent Solutions Group", period := "06/2018 - 12/2020", location := "San Francisco, CA" }
      job_title := "Technology Architecture Lead"
      bullet_points :=
        [ { bullet_point := "Led architectural design and development of complex multi-agent AI systems using CrewAI and LangChain, enabling autonomous decision-making, resulting in 25% improvement in first-call resolution rates." }
        , { bullet_point := "Designed and implemented agent communication protocols using gRPC and RabbitMQ, ensuring robust and scalable inter-agent communication within customer service platforms." }
        , { bullet_point := "Developed belief-desire-intention (BDI) agent architectures within the CrewAI framework, optimizing for rapid response times and accurate information retrieval." }
        , { bullet_point := "Orchestrated deployment of agentic AI solutions on Microsoft Azure using Kubernetes and AKS, ensuring scalability and fault tolerance." }
        , { bullet_point := "Provided technical leadership to a team of 9 AI engineers, fostering expertise in agent-based modeling and multi-agent system design." } ] }
  , { company_info := { name := "Communication Systems Inc.", period := "01/2016 - 05/2018", location := "Boston, MA" }
      job_title := "Python Developer"
      bullet_points :=
        [ { bullet_point := "Developed robust backend systems using Python and Flask framework to automate configuration and management of contact center deployments, streamlining setup processes." }
        , { bullet_point := "Integrated systems with programmable communications APIs via RESTful interfaces, enabling programmatic control over contact center features and workflows." }
        , { bullet_point := "Implemented core automation logic using Python, leveraging requests library for API interaction and SQLAlchemy for database operations." }
        , { bullet_point := "Designed and implemented message queue-based task management systems using RabbitMQ and pika, enabling asynchronous processing of configuration tasks." }
        , { bullet_point := "Created comprehensive testing suites using pytest, achieving 92% code coverage and reducing production incidents by 35%." } ] } ]

/-- Python `_legacy_generate_tailored_resume`: identity fields from
`user_info`, a locally computed summary, the three fixed experiences, and
empty `education`, `employment_history` and `skills`. -/
def legacy_generate_tailored_resume (experience_data job_description : String)
    (user_info : UserInfo) : ResumeData :=
  let keywords := extract_keywords job_description
  let summary := generate_summary experience_data keywords
  { name := user_info.name
    title := user_info.title
    email := user_info.email
    phone := user_info.phone
    location := user_info.location
    linkedin := user_info.linkedin
    summary := summary
    experiences := fallbackExperiences
    education := []
    employment_history := []
    skills := [] }

/-! ## `generate_tailored_resume` (resume_matcher.py, lines 400-743) -/

/-- Outcome of the external generation calls inside the `try` block: either
`extract_sills` and the structured chat completion both succeed, producing
a skill set and a parsed model resume, or some step raises and control
reaches the `except` clause. -/
inductive GenOutcome where
  | ok (skills : Skills) (modelOut : ResumeData)
  | fail
deriving Repr

/-- The post-generation company-info override loop (lines 708-714): walk
the employment history in order, overwriting `experiences[i].company_info`,
and stop as soon as the history index exceeds the last experience index. -/
def overrideExperiences : List Experience → List EmploymentHistory → List Experience
  | exps, [] => exps
  | [], _ => []
  | e :: exps, j :: hist =>
    { e with company_info := { name := j.company_name, period := j.period, location := j.location } }
      :: overrideExperiences exps hist

/-- The `linkedin_profile` expression of line 725: an HTML anchor when the
user supplied a truthy (non-empty) LinkedIn URL, else the empty string. -/
def linkedinProfile (linkedin : Option String) : String :=
  match linkedin with
  | some s => if s = "" then "" else "<a href=\"" ++ s ++ "\">LinkedIn</a>"
  | none => ""

/-- Python `generate_tailored_resume`.  On the primary path (`.ok`) the
function returns a fresh `ResumeData` whose identity fields come from
`user_info`, whose summary, experiences (after the company-info override)
and skills come from the model output, whose education comes from
`user_info`, and whose `employment_history` is the never-populated
`employment_history_data = []` (the loop filling it is commented out in the
source).  On `.fail` every exception of the `try` block funnels into
`_legacy_generate_tailored_resume`. -/
def generate_tailored_resume (experience_data job_description : String)
    (user_info : UserInfo) (gen : GenOutcome) : ResumeData :=
  match gen with
  | .ok _skills modelOut =>
    { name := user_info.name
      title := user_info.title
      email := user_info.email
      phone := user_info.phone
      location := user_info.location
      linkedin := some (linkedinProfile user_info.linkedin)
      summary := modelOut.summary
      experiences := overrideExperiences modelOut.experiences user_info.employment_history
      education := user_info.education
      employment_history := []
      skills := modelOut.skills }
  | .fail => legacy_generate_tailored_resume experience_data job_description user_info

/-! ## Profile store (src/app.py, lines 31-52)

`save_profile` writes `profile_data.model_dump_json()` to
`profiles/<name with spaces replaced by underscores>.json`;
`load_profile(profile_name)` reads `profiles/<profile_name>.json`, parses
the JSON and validates it with `ProfileData(**data)`, returning `None`
when the file does not exist.  The profiles directory is modelled as an
association list from file names to JSON values (a later save of the same
name shadows the earlier record, i.e. last write wins), and the pydantic
serialization round trip is modelled at the JSON-value level. -/

/-- Python class `ProfileData` of schema.py. -/
structure ProfileData where
  name : String
  title : String
  email : String
  phone : String
  location : String
  linkedin : Option String
  education : List Education
  employment_history : List EmploymentHistory
deriving DecidableEq, Repr

/-- JSON values (the subset produced and consumed by the profile store). -/
inductive JsonVal where
  | null
  | str (s : String)
  | arr (items : List JsonVal)
  | obj (fields : List (String × JsonVal))
deriving Repr

/-- First binding of a key in a JSON object, as Python dict lookup after
`json.load` (keys produced by `model_dump_json` are unique). -/
def findField (fields : List (String × JsonVal)) (key : String) : Option JsonVal :=
  match fields with
  | [] => none
  | (k, v) :: rest => if k = key then some v else findField rest key

/-- Serialization of an `Education` entry by `model_dump_json`. -/
def dumpEducation (e : Education) : JsonVal :=
  .obj [ ("university_name", .str e.university_name)
       , ("period", .str e.period)
       , ("location", .str e.location)
       , ("degree", .str e.degree) ]

/-- Serialization of an `EmploymentHistory` entry by `model_dump_json`. -/
def dumpEmployment (j : EmploymentHistory) : JsonVal :=
  .obj [ ("company_name", .str j.company_name)
       , ("period", .str j.period)
       , ("location", .str j.location) ]

/-- Serialization of a `ProfileData` by `model_dump_json` (fields in
declaration order). -/
def dumpProfile (p : ProfileData) : JsonVal :=
  .obj [ ("name", .str p.name)
       , ("title", .str p.title)
       , ("email", .str p.email)
       , ("phone", .str p.phone)
       , ("location", .str p.location)
       , ("linkedin", match p.linkedin with | some s => .str s | none => .null)
       , ("education", .arr (p.education.map dumpEducation))
       , ("employment_history", .arr (p.employment_history.map dumpEmployment)) ]

/-- Validation of one education entry by `Education(**...)`. -/
def parseEducation : JsonVal → Option Education
  | .obj fs =>
    match findField fs "university_name", findField fs "period",
          findField fs "location", findField fs "degree" with
    | some (.str u), some (.str p), some (.str l), some (.str d) =>
      some { university_name := u, period := p, location := l, degree := d }
    | _, _, _, _ => none
  | _ => none

/-- Validation of one employment entry by `EmploymentHistory(**...)`. -/
def parseEmployment : JsonVal → Option EmploymentHistory
  | .obj fs =>
    match findField fs "company_name", findField fs "period", findField fs "location" with
    | some (.str c), some (.str p), some (.str l) =>
      some { company_name := c, period := p, location := l }
    | _, _, _ => none
  | _ => none

/-- Elementwise validation of a JSON array (pydantic list validation:
every element must validate). -/
def parseListWith {α : Type} (f : JsonVal → Option α) : List JsonVal → Option (List α)
  | [] => some []
  | j :: js =>
    match f j, parseListWith f js with
    | some a, some rest => some (a :: rest)
    | _, _ => none

/-- Validation `ProfileData(**data)`: the five string fields are required,
`linkedin` defaults to `None` (and accepts `null`), the two list fields
default to `[]`; any type mismatch fails validation (a pydantic
`ValidationError`, modelled as `none`). -/
def parseProfile : JsonVal → Option ProfileData
  | .obj fs =>
    match findField fs "name", findField fs "title", findField fs "email",
          findField fs "phone", findField fs "location" with
    | some (.str n), some (.str t), some (.str e), some (.str ph), some (.str loc) =>
      let linkedin : Option (Option String) :=
        match findField fs "linkedin" with
        | some (.str s) => some (some s)
        | some .null => some none
        | none => some none
        | some _ => none
      let education : Option (List Education) :=
        match findField fs "education" with
        | some (.arr js) => parseListWith parseEducation js
        | none => some []
        | some _ => none
      let employment : Option (List EmploymentHistory) :=
        match findField fs "employment_history" with
        | some (.arr js) => parseListWith parseEmployment js
        | none => some []
        | some _ => none
      match linkedin, education, employment with
      | some li, some ed, some eh =>
        some { name := n, title := t, email := e, phone := ph, location := loc,
               linkedin := li, education := ed, employment_history := eh }
      | _, _, _ => none
    | _, _, _, _, _ => none
  | _ => none

/-- The filesystem-safe key transform of a profile name:
`name.replace(' ', '_')`. -/
def profileKey (name : String) : String :=
  String.mk (name.data.map (fun c => if c = ' ' then '_' else c))

/-- The profiles directory: file name to stored JSON value. -/
def ProfileStore : Type := List (String × JsonVal)

/-- Lookup of a stored file; the head of the list is the most recent
write. -/
def storeLookup : List (String × JsonVal) → String → Option JsonVal
  | [], _ => none
  | (k, v) :: rest, q => if k = q then some v else storeLookup rest q

/-- Python `save_profile`: write the serialized profile to
`<key(name)>.json`, overwriting any earlier record with that name. -/
def save_profile (store : ProfileStore) (p : ProfileData) : ProfileStore :=
  (profileKey p.name ++ ".json", dumpProfile p) :: store

/-- Python `load_profile`: `None` when `<profile_name>.json` does not
exist, otherwise parse and validate the stored record. -/
def load_profile (store : ProfileStore) (profile_name : String) : Option ProfileData :=
  match storeLookup store (profile_name ++ ".json") with
  | none => none
  | some j => parseProfile j

/-! ## Search-text helpers for the skill-coverage claim -/

/-- Concatenated text of one experience entry's bullet points. -/
def bulletsText (e : Experience) : String :=
  concatStrs (e.bullet_points.map (fun b => b.bullet_point))

/-- Concatenated text of all bullet points of all experiences. -/
def allBulletsText (l : List Experience) : String :=
  concatStrs (l.map bulletsText)

/-- Concatenated text of the skills section (category labels and skill
lists). -/
def skillsSectionText (l : List Skill) : String :=
  concatStrs (l.map (fun s => s.category ++ s.skill_list))

/-- The concatenation of summary, all bullet points and the skills section
of a resume: the text in which claim C2 requires each extracted skill to
occur. -/
def resumeSearchText (r : ResumeData) : String :=
  r.summary ++ allBulletsText r.experiences ++ skillsSectionText r.skills

/-- Case-insensitive occurrence of a skill string in the search text of a
resume. -/
def skillAppears (r : ResumeData) (s : String) : Bool :=
  containsSub (s.data.map lowerChar) ((resumeSearchText r).data.map lowerChar)

/-- The company-info part of claim C1/P5 as stated by the spec: at every
index of the employment history, the experience entry at the same index
exists and carries exactly that history entry's name, period and
location. -/
def companyInfoMatches (r : ResumeData) (hist : List EmploymentHistory) : Prop :=
  ∀ i, i < hist.length →
    ∃ e j, r.experiences[i]? = some e ∧ hist[i]? = some j ∧
      e.company_info.name = j.company_name ∧
      e.company_info.period = j.period ∧
      e.company_info.location = j.location

/-! ## Concrete sample data used in counterexamples and witnesses -/

/-- Employment-history entry of spec Scenario B. -/
def sampleHistEntry : EmploymentHistory :=
  { company_name := "Acme", period := "Jan 2020 - Dec 2022", location := "Austin, TX" }

/-- A concrete education entry. -/
def sampleEducationEntry : Education :=
  { university_name := "Massachusetts Institute of Technology", period := "2015-2019"
    location := "Cambridge, MA", degree := "B.S. Computer Science" }

/-- A concrete `user_info` with one employment entry and one education
entry. -/
def sampleUser : UserInfo :=
  { name := "John Doe", title := "Software Engineer", email := "john.doe@example.com"
    phone := "+1 (234) 567-8900", location := "Austin, TX"
    linkedin := some "https://www.linkedin.com/in/johndoe"
    education := [sampleEducationEntry]
    employment_history := [sampleHistEntry] }

/-- A concrete extracted skill set. -/
def sampleSkills : Skills :=
  { hard_skills := ["Python"], soft_skills := [] }

/-- A possible parsed model output that ignores every prompt constraint:
no experiences, no skills, a one-character summary. -/
def emptyModelOut : ResumeData :=
  { name := "Model Name", title := "Model Title", email := "model@example.com"
    phone := "000", location := "Nowhere", linkedin := none
    summary := "x", experiences := [], education := [], employment_history := [], skills := [] }

/-- A well-behaved parsed model output: one experience entry and a summary
mentioning the extracted skill. -/
def sampleModelOut : ResumeData :=
  { name := "Model Name", title := "Model Title", email := "model@example.com"
    phone := "000", location := "Nowhere", linkedin := none
    summary := "Python expert with measurable impact."
    experiences :=
      [ { company_info := { name := "Invented Co", period := "Feb 2019 - Mar 2021", location := "Remote" }
          job_title := "Senior ML Engineer"
          bullet_points := [ { bullet_point := "Led delivery of a platform, cutting costs by 20%." } ] } ]
    education := [], employment_history := [], skills := [] }

/-- A concrete valid profile. -/
def sampleProfile : ProfileData :=
  { name := "John Doe", title := "Software Engineer", email := "john.doe@example.com"
    phone := "+1 (234) 567-8900", location := "New York, NY"
    linkedin := some "https://www.linkedin.com/in/johndoe"
    education := [sampleEducationEntry]
    employment_history := [sampleHistEntry] }

/-! ## Helper lemmas -/

/-- The override loop never changes the number of experience entries. -/
theorem overrideExperiences_length (es : List Experience) (hs : List EmploymentHistory) :
    (overrideExperiences es hs).length = es.length := by
  induction es generalizing hs with
  | nil => cases hs <;> rfl
  | cons e es ih =>
    cases hs with
    | nil => rfl
    | cons j js => simp [overrideExperiences, ih]

/-- Entry-level description of the override loop: where both the
experience list and the employment history have an entry, the result
carries the original entry with its company info replaced by the history
entry. -/
theorem overrideExperiences_getElem (es : List Experience) (hs : List EmploymentHistory)
    (i : Nat) (x : Experience) (j : EmploymentHistory)
    (hx : es[i]? = some x) (hj : hs[i]? = some j) :
    (overrideExperiences es hs)[i]? =
      some { x with company_info := { name := j.company_name, period := j.period, location := j.location } } := by
  induction es generalizing hs i with
  | nil => simp at hx
  | cons e es ih =>
    cases hs with
    | nil => simp at hj
    | cons k ks =>
      cases i with
      | zero =>
        simp at hx hj
        subst hx; subst hj
        simp [overrideExperiences]
      | succ n =>
        simp at hx hj
        simpa [overrideExperiences] using ih ks n hx hj

/-- Unfolding equation for the bullet text of a non-empty experience
list. -/
theorem allBulletsText_cons (x : Experience) (l : List Experience) :
    allBulletsText (x :: l) = bulletsText x ++ allBulletsText l := rfl

/-- The override loop never changes bullet-point text. -/
theorem overrideExperiences_bullets (es : List Experience) (hs : List EmploymentHistory) :
    allBulletsText (overrideExperiences es hs) = allBulletsText es := by
  induction es generalizing hs with
  | nil => cases hs <;> rfl
  | cons e es ih =>
    cases hs with
    | nil => rfl
    | cons j js =>
      show allBulletsText (_ :: overrideExperiences es js) = _
      rw [allBulletsText_cons, allBulletsText_cons, ih js]
      rfl

/-- On the primary path the searchable text (summary, bullets, skills
section) of the returned resume is exactly that of the model output. -/
theorem resumeSearchText_primary (ed jd : String) (u : UserInfo) (sk : Skills) (m : ResumeData) :
    resumeSearchText (generate_tailored_resume ed jd u (.ok sk m)) = resumeSearchText m := by
  simp [resumeSearchText, generate_tailored_resume, overrideExperiences_bullets]

set_option maxRecDepth 4096 in
/-- Appending the generic closing statement always yields a non-empty
string. -/
theorem append_genericClosing_ne_empty (s : String) : s ++ genericClosing ≠ "" := by
  intro h
  have hlen : (s ++ genericClosing).length = 0 := by rw [h]; rfl
  rw [String.length_append] at hlen
  have : 0 < genericClosing.length := by decide
  omega

/-- The fallback summary is never empty: either it is at least 100
characters long, or the generic closing statement was appended. -/
theorem generate_summary_ne_empty (ed : String) (kws : List String) :
    generate_summary ed kws ≠ "" := by
  unfold generate_summary
  by_cases h : (rawFallbackSummary ed kws).length < 100
  · simp only [h, if_true]
    exact append_genericClosing_ne_empty _
  · simp only [h, if_false]
    intro heq
    rw [heq] at h
    exact h (by decide)

/-- Education entries survive the serialization round trip. -/
theorem parseEducation_dumpEducation (e : Education) :
    parseEducation (dumpEducation e) = some e := rfl

/-- Employment entries survive the serialization round trip. -/
theorem parseEmployment_dumpEmployment (j : EmploymentHistory) :
    parseEmployment (dumpEmployment j) = some j := rfl

/-- Education lists survive the serialization round trip. -/
theorem parseListWith_dumpEducation (l : List Education) :
    parseListWith parseEducation (l.map dumpEducation) = some l := by
  induction l with
  | nil => rfl
  | cons e es ih => simp [parseListWith, parseEducation_dumpEducation, ih]

/-- Employment lists survive the serialization round trip. -/
theorem parseListWith_dumpEmployment (l : List EmploymentHistory) :
    parseListWith parseEmployment (l.map dumpEmployment) = some l := by
  induction l with
  | nil => rfl
  | cons e es ih => simp [parseListWith, parseEmployment_dumpEmployment, ih]

/-- Profiles survive the pydantic serialization round trip. -/
theorem parseProfile_dumpProfile (p : ProfileData) :
    parseProfile (dumpProfile p) = some p := by
  cases p with
  | mk n t e ph loc li ed eh =>
    cases li <;>
      simp [parseProfile, dumpProfile, findField,
        parseListWith_dumpEducation, parseListWith_dumpEmployment]

/-- Filtering the scored sections to positive scores is the same as
scoring only the sections that contain a keyword. -/
theorem scored_filter_comm (ks : List String) (secs : List String) :
    ((secs.map (fun sec => (sec, sectionScore ks sec))).filter (fun p => decide (0 < p.2))) =
      ((secs.filter (fun sec => decide (0 < sectionScore ks sec))).map
        (fun sec => (sec, sectionScore ks sec))) := by
  induction secs with
  | nil => rfl
  | cons s ss ih => by_cases h : 0 < sectionScore ks s <;> simp [h, ih]

/-! ## Claim theorems -/

/-- Claim C1, counterexample: with a one-entry employment history and a
generation output containing no experience entries, the returned resume has
no experience entry at index 0 at all, so
`experiences[0].company_info` cannot equal `employment_history[0]`; the
override loop of lines 708-714 breaks as soon as the history index exceeds
the generated experience count. -/
theorem c1_counterexample :
    ¬ companyInfoMatches
        (generate_tailored_resume "" "" sampleUser (.ok sampleSkills emptyModelOut))
        sampleUser.employment_history := by
  intro h
  obtain ⟨e, j, he, hj, hn, hp, hl⟩ := h 0 (by decide)
  have hexp : (generate_tailored_resume "" "" sampleUser (.ok sampleSkills emptyModelOut)).experiences = [] := rfl
  rw [hexp] at he
  simp at he

/-- Claim C1, amended: after a primary-path synthesis, for every index `i`
below both the employment-history length and the number of experience
entries the generation call returned, the returned resume's
`experiences[i].company_info` equals `employment_history[i]` exactly in
name, period and location, regardless of the company-info values the
generation call produced. -/
theorem c1_company_override_amended (ed jd : String) (u : UserInfo) (sk : Skills) (m : ResumeData)
    (i : Nat) (hhist : i < u.employment_history.length) (hexps : i < m.experiences.length) :
    ∃ e j, (generate_tailored_resume ed jd u (.ok sk m)).experiences[i]? = some e ∧
      u.employment_history[i]? = some j ∧
      e.company_info.name = j.company_name ∧
      e.company_info.period = j.period ∧
      e.company_info.location = j.location := by
  refine ⟨{ m.experiences.get ⟨i, hexps⟩ with
              company_info :=
                { name := (u.employment_history.get ⟨i, hhist⟩).company_name
                  period := (u.employment_history.get ⟨i, hhist⟩).period
                  location := (u.employment_history.get ⟨i, hhist⟩).location } },
          u.employment_history.get ⟨i, hhist⟩, ?_, ?_, rfl, rfl, rfl⟩
  · show (overrideExperiences m.experiences u.employment_history)[i]? = _
    exact overrideExperiences_getElem m.experiences u.employment_history i _ _
      (List.getElem?_eq_getElem hexps) (List.getElem?_eq_getElem hhist)
  · exact List.getElem?_eq_getElem hhist

/-- Witness for the amended claim C1 at a concrete input (spec Scenario
B's employment entry and a model output with one experience entry). -/
theorem c1_company_override_amended_witness :
    ∃ e j, (generate_tailored_resume "" "" sampleUser (.ok sampleSkills sampleModelOut)).experiences[0]? = some e ∧
      sampleUser.employment_history[0]? = some j ∧
      e.company_info.name = j.company_name ∧
      e.company_info.period = j.period ∧
      e.company_info.location = j.location :=
  c1_company_override_amended "" "" sampleUser sampleSkills sampleModelOut 0 (by decide) (by decide)

/-- Claim C2, counterexample: the skill-coverage requirement is only a
prompt instruction; the code never verifies or patches it.  With extracted
hard skill `Python` and a generation output whose summary is `x` and which
has no bullet points and no skills entries, the returned resume's
summary + bullets + skills text contains no case-insensitive occurrence of
`Python`. -/
theorem c2_counterexample :
    ¬ ∀ s ∈ sampleSkills.hard_skills ++ sampleSkills.soft_skills,
        skillAppears (generate_tailored_resume "" "" sampleUser (.ok sampleSkills emptyModelOut)) s = true := by
  decide

/-- Claim C2, amended: on the primary path, IF the generation output
itself covers every extracted skill (at least one case-insensitive
occurrence in its summary + bullet points + skills section), then so does
the returned resume: the post-generation override preserves the summary,
every bullet point and the skills section verbatim. -/
theorem c2_skill_coverage_amended (ed jd : String) (u : UserInfo) (sk : Skills) (m : ResumeData)
    (hcov : ∀ s ∈ sk.hard_skills ++ sk.soft_skills, skillAppears m s = true) :
    ∀ s ∈ sk.hard_skills ++ sk.soft_skills,
      skillAppears (generate_tailored_resume ed jd u (.ok sk m)) s = true := by
  intro s hs
  have hm := hcov s hs
  unfold skillAppears at hm ⊢
  rw [resumeSearchText_primary]
  exact hm

/-- Witness for the amended claim C2 at a concrete input: the model output
mentions the extracted skill in its summary, and so does the returned
resume. -/
theorem c2_skill_coverage_amended_witness :
    skillAppears (generate_tailored_resume "" "" sampleUser (.ok sampleSkills sampleModelOut)) "Python" = true :=
  c2_skill_coverage_amended "" "" sampleUser sampleSkills sampleModelOut (by decide) "Python" (by decide)

/-- Claim C3, confirmed: on both the primary path and the fallback path,
the returned resume's `name`, `email` and `location` are copied from
`user_info`, never taken from the generation output (lines 726-731 and
908-912). -/
theorem c3_identity_override (ed jd : String) (u : UserInfo) (gen : GenOutcome) :
    (generate_tailored_resume ed jd u gen).name = u.name ∧
    (generate_tailored_resume ed jd u gen).email = u.email ∧
    (generate_tailored_resume ed jd u gen).location = u.location := by
  cases gen <;> exact ⟨rfl, rfl, rfl⟩

/-- Claim C4, confirmed: the generation failure path (`except` clause,
lines 740-743) returns `_legacy_generate_tailored_resume`, whose summary is
never empty (the generic closing statement is appended whenever the
assembled summary is shorter than 100 characters) and whose experiences
are exactly the 3 fixed placeholder entries.  Totality of the Lean model
reflects that the fallback path performs no external call and cannot
raise. -/
theorem c4_fallback_availability (ed jd : String) (u : UserInfo) :
    (generate_tailored_resume ed jd u .fail).summary ≠ "" ∧
    (generate_tailored_resume ed jd u .fail).experiences = fallbackExperiences ∧
    (generate_tailored_resume ed jd u .fail).experiences.length = 3 :=
  ⟨generate_summary_ne_empty ed (extract_keywords jd), rfl, rfl⟩

/-- Claim C5, counterexample: on the fallback path the returned
`education` is the empty list (line 916), not the candidate's education
list, so a candidate with a non-empty education list gets a resume whose
education differs from the profile's. -/
theorem c5_counterexample :
    (generate_tailored_resume "" "" sampleUser GenOutcome.fail).education ≠ sampleUser.education := by
  decide

/-- Claim C5, amended: the returned education list is never
model-generated — on the primary path it equals the candidate's real
education list (lines 717-720 and 735), but on the fallback path it is the
empty list, not the candidate's list. -/
theorem c5_education_amended (ed jd : String) (u : UserInfo) (sk : Skills) (m : ResumeData) :
    (generate_tailored_resume ed jd u (.ok sk m)).education = u.education ∧
    (generate_tailored_resume ed jd u .fail).education = [] :=
  ⟨rfl, rfl⟩

/-- Claim C6, counterexample: a primary-path synthesis with `n = 1`
employment entry and a generation output containing no experience entries
returns 0 experience entries, not `n`; the requested count is a prompt
instruction only and is never enforced. -/
theorem c6_counterexample :
    0 < sampleUser.employment_history.length ∧
    (generate_tailored_resume "" "" sampleUser (.ok sampleSkills emptyModelOut)).experiences.length ≠
      sampleUser.employment_history.length := by
  decide

/-- Claim C6, amended: the primary path returns exactly as many experience
entries as the generation call produced (the requested count
`len(employment_history)` is not enforced), and the fallback path returns
exactly 3 entries regardless of the employment-history length; an empty
employment history does not route to the fallback. -/
theorem c6_experience_count_amended (ed jd : String) (u : UserInfo) (sk : Skills) (m : ResumeData) :
    (generate_tailored_resume ed jd u (.ok sk m)).experiences.length = m.experiences.length ∧
    (generate_tailored_resume ed jd u .fail).experiences.length = 3 :=
  ⟨overrideExperiences_length m.experiences u.employment_history, rfl⟩

/-- Claim C7, counterexample: the code considers only sections containing
at least one keyword as candidates for the top 3, while the spec's "take
the top 3 sections by score" ranks every section; with experience text
`alpha\n## python work\n## beta` and job description `python python` the
code's summary uses only the one keyword-bearing section, the spec's
algorithm also concatenates the two zero-score sections. -/
theorem c7_counterexample :
    fallbackSummary "alpha\n## python work\n## beta" "python python" ≠
      fallbackSummarySpecLiteral "alpha\n## python work\n## beta" "python python" := by
  decide

/-- Claim C7, amended: the fallback summary equals the spec's algorithm
with one correction — only sections containing at least one keyword are
candidates, and the top 3 of those by score are used (keywords: top 15
words of the job description by frequency after dropping the stopword list
and words of length at most 3; sections split on heading boundaries;
first paragraphs concatenated under a combined 1500-character budget; a
fixed generic closing statement appended when the result is shorter than
100 characters). -/
theorem c7_fallback_summary_amended (ed jd : String) :
    fallbackSummary ed jd = fallbackSummarySpecAmended ed jd := by
  simp only [fallbackSummary, fallbackSummarySpecAmended, generate_summary,
    generate_summary_specAmended, rawFallbackSummary, scored_filter_comm]

/-- Claim C8, confirmed: saving a valid profile and loading it back under
the spaces-to-underscores key of its name returns the identical profile
(the JSON serialization round trip is lossless and the store lookup finds
the most recent write). -/
theorem c8_profile_roundtrip (store : ProfileStore) (p : ProfileData)
    (hname : p.name ≠ "") (hemail : p.email ≠ "") (hloc : p.location ≠ "") :
    load_profile (save_profile store p) (profileKey p.name) = some p := by
  unfold load_profile save_profile
  simp [storeLookup, parseProfile_dumpProfile]

/-- Witness for claim C8 at a concrete valid profile. -/
theorem c8_profile_roundtrip_witness :
    sampleProfile.name ≠ "" ∧ sampleProfile.email ≠ "" ∧ sampleProfile.location ≠ "" ∧
    load_profile (save_profile [] sampleProfile) (profileKey sampleProfile.name) = some sampleProfile :=
  ⟨by decide, by decide, by decide,
    c8_profile_roundtrip [] sampleProfile (by decide) (by decide) (by decide)⟩

/-- Claim C9, counterexample: the `employment_history` field of the
returned resume is the never-populated `employment_history_data = []` (the
echo loop of lines 408-417 is commented out), so for a candidate with a
non-empty employment history the returned field differs from the input. -/
theorem c9_counterexample :
    (generate_tailored_resume "" "" sampleUser (.ok sampleSkills emptyModelOut)).employment_history ≠
      sampleUser.employment_history := by
  decide

/-- Claim C9, amended: the `employment_history` field of the returned
resume is always the empty list, on the primary path (line 736, fed by the
never-populated `employment_history_data`) as well as on the fallback path
(line 917). -/
theorem c9_employment_history_amended (ed jd : String) (u : UserInfo) (gen : GenOutcome) :
    (generate_tailored_resume ed jd u gen).employment_history = [] := by
  cases gen <;> rfl

/-- Claim C10, confirmed: on both paths the returned resume's `title` and
`phone` are copied from `user_info` (lines 728-730 and 909-911), never
taken from the generation output, even though the spec's override list
names only name, email, location and linkedin. -/
theorem c10_title_phone_override (ed jd : String) (u : UserInfo) (gen : GenOutcome) :
    (generate_tailored_resume ed jd u gen).title = u.title ∧
    (generate_tailored_resume ed jd u gen).phone = u.phone := by
  cases gen <;> exact ⟨rfl, rfl⟩
